import Mathlib

/-!
Verification of the Jiminny MCP server (`src/server.py`).

The development shallowly embeds the server's pure logic in Lean:

* JSON values (`Json`) model the parsed bodies returned by `response.json()`;
  numbers are modelled as naturals (the claims under study only involve
  non-negative integer offsets and counts, never fractional values).
* Python truthiness, `or`-chaining, `dict.get`, string `strip`/`lstrip`,
  slicing and `str.join` are embedded as executable functions with the
  same observable behaviour on the values the server manipulates.
* The upstream HTTP API is an oracle `String → HttpOutcome` mapping a
  request URL to either a raised exception or a `(status, body)` pair;
  `body` is `Except PyErr Json` because `resp.json()` itself may raise.
* Exceptions are the explicit `PyErr` type; fallible code returns
  `Except PyErr α`.  A tool handler that catches all exceptions at its
  boundary therefore always produces `Except.ok`.
-/

/-- JSON values as parsed by `response.json()`.  Numbers are modelled as
naturals (see module comment). -/
inductive Json where
  | null : Json
  | bool (b : Bool) : Json
  | num (n : Nat) : Json
  | str (s : String) : Json
  | arr (elems : List Json) : Json
  | obj (fields : List (String × Json)) : Json

/-- Python exceptions raised by the code paths of `server.py`:
the missing-token `RuntimeError`, `httpx.HTTPStatusError`,
`httpx.TimeoutException`, and the generic kinds reachable from the
JSON massaging (`AttributeError`, `TypeError`, `ValueError`,
JSON decode failures of `resp.json()`). -/
inductive PyErr where
  | tokenMissing : PyErr
  | httpStatus (status : Nat) : PyErr
  | timeout : PyErr
  | attrError (msg : String) : PyErr
  | typeError (msg : String) : PyErr
  | valueError (msg : String) : PyErr
  | jsonDecode (msg : String) : PyErr
deriving DecidableEq

/-- Python truthiness (`bool(x)`) on JSON values: `None`, `False`, `0`,
`""`, `[]` and `{}` are falsy, everything else truthy. -/
def truthy : Json → Bool
  | .null => false
  | .bool b => b
  | .num n => !(n == 0)
  | .str s => !(s == "")
  | .arr l => !l.isEmpty
  | .obj f => !f.isEmpty

/-- Python `a or b`: the first operand if truthy, else the second. -/
def orJ (a b : Json) : Json := if truthy a then a else b

/-- `d[k]` / `d.get(k)` on a JSON object: value of the first field named
`k`, or `null` (Python `None`) when absent. -/
def jget (fields : List (String × Json)) (k : String) : Json :=
  match fields with
  | [] => .null
  | (k1, v) :: rest => if k1 = k then v else jget rest k

/-- `k in d` on a JSON object. -/
def containsKey (fields : List (String × Json)) (k : String) : Bool :=
  fields.any (fun kv => kv.1 == k)

/-- `d.get(k, default)`: presence-based default, unlike `orJ`. -/
def dget (fields : List (String × Json)) (k : String) (d : Json) : Json :=
  if containsKey fields k then jget fields k else d

mutual
/-- Structural equality of JSON values, modelling Python `==` on the
values the server compares (strings and `None`; the numeric
cross-type equalities such as Python `True == 1` are not modelled, as no
code path under study compares a bool with a number). -/
def jeq : Json → Json → Bool
  | .null, .null => true
  | .bool a, .bool b => a == b
  | .num a, .num b => a == b
  | .str a, .str b => a == b
  | .arr xs, .arr ys => jeqList xs ys
  | .obj xs, .obj ys => jeqFields xs ys
  | _, _ => false

/-- Elementwise `jeq` on JSON arrays. -/
def jeqList : List Json → List Json → Bool
  | [], [] => true
  | x :: xs, y :: ys => jeq x y && jeqList xs ys
  | _, _ => false

/-- Fieldwise `jeq` on JSON objects. -/
def jeqFields : List (String × Json) → List (String × Json) → Bool
  | [], [] => true
  | (k1, v1) :: xs, (k2, v2) :: ys => k1 == k2 && jeq v1 v2 && jeqFields xs ys
  | _, _ => false
end

/-- A Python `dict` keyed by JSON values, in insertion order:
lookup of the first matching key. -/
def dictGet? {α : Type} : List (Json × α) → Json → Option α
  | [], _ => none
  | (k1, v) :: rest, k => if jeq k1 k then some v else dictGet? rest k

/-- `d[k] = v` on a Python `dict`: replace in place when the key exists,
append otherwise (insertion order preserved). -/
def dictSet {α : Type} : List (Json × α) → Json → α → List (Json × α)
  | [], k, v => [(k, v)]
  | (k1, v1) :: rest, k, v =>
      if jeq k1 k then (k1, v) :: rest else (k1, v1) :: dictSet rest k v

/-- Python string slicing `s[:n]` (by code points, like Lean `Char`s). -/
def strTake (s : String) (n : Nat) : String := String.mk (s.data.take n)

/-- Python `str.strip()` (no arguments): drop whitespace at both ends. -/
def pystrip (s : String) : String :=
  String.mk (((s.data.dropWhile Char.isWhitespace).reverse.dropWhile
      Char.isWhitespace).reverse)

/-- Python `s.lstrip(chars)`: drop leading characters belonging to the
given set. -/
def lstripSet (s : String) (chars : List Char) : String :=
  String.mk (s.data.dropWhile (fun c => c ∈ chars))

/-- Python `sep.join(parts)`. -/
def pyJoin (sep : String) : List String → String
  | [] => ""
  | [x] => x
  | x :: y :: rest => x ++ sep ++ pyJoin sep (y :: rest)

/-- Digits of a decimal numeral to a natural number. -/
def digitsToNat (l : List Char) : Nat :=
  l.foldl (fun acc c => acc * 10 + (c.toNat - 48)) 0

/-- Python `int(float(x))`, on the values reachable in the server (used
only under a truthiness guard).  Numbers map to themselves, booleans to
0/1, strings of decimal digits to their value; other strings raise
`ValueError`, containers raise `TypeError`.  Fractional values are
outside the model (numbers are naturals). -/
def pyFloat : Json → Except PyErr Nat
  | .num n => .ok n
  | .bool b => .ok (cond b 1 0)
  | .str s =>
      if s.data ≠ [] ∧ s.data.all Char.isDigit
      then .ok (digitsToNat s.data)
      else .error (.valueError s)
  | _ => .error (.typeError "float() argument")

/-- Python `repr(x)` of a parsed-JSON value, used by `str()` on
containers (e.g. the raw-payload dump `str(data)`).  Internal escaping
of quotes inside strings is not modelled; no claim depends on the
precise repr text. -/
def pyRepr : Json → String
  | .null => "None"
  | .bool b => cond b "True" "False"
  | .num n => toString n
  | .str s => "\x27" ++ s ++ "\x27"
  | .arr l =>
      "[" ++ pyJoin ", " (l.attach.map (fun x => pyRepr x.1)) ++ "]"
  | .obj f =>
      "\x7b" ++
        pyJoin ", "
          (f.attach.map (fun kv => "\x27" ++ kv.1.1 ++ "\x27: " ++ pyRepr kv.1.2))
        ++ "\x7d"
decreasing_by
  · have := List.sizeOf_lt_of_mem x.2
    simp only [Json.arr.sizeOf_spec]
    omega
  · have h1 := List.sizeOf_lt_of_mem kv.2
    have h2 : sizeOf kv.1.2 < sizeOf kv.1 := by
      obtain ⟨a, b⟩ := kv.1
      simp
      try omega
    simp only [Json.obj.sizeOf_spec]
    omega

/-- Python `str(x)` for interpolation into f-strings: scalars print
bare, containers print as their `repr`. -/
def pyStr : Json → String
  | .null => "None"
  | .bool b => cond b "True" "False"
  | .num n => toString n
  | .str s => s
  | .arr l => pyRepr (.arr l)
  | .obj f => pyRepr (.obj f)

-- ---------------------------------------------------------------------------
-- Constants (server.py lines 20-22)
-- ---------------------------------------------------------------------------

/-- `API_BASE_URL` from the source. -/
def API_BASE_URL : String := "https://app.jiminny.com/api/v1"

/-- `CHARACTER_LIMIT` from the source. -/
def CHARACTER_LIMIT : Nat := 25000

/-- The fixed suffix appended by `_truncate` when the limit is exceeded. -/
def TRUNCATION_SUFFIX : String :=
  "\n\n... [truncated — response exceeded character limit]"

-- ---------------------------------------------------------------------------
-- Shared helpers (server.py lines 33-118)
-- ---------------------------------------------------------------------------

/-- `_format_seconds`: `mins, secs = divmod(int(seconds), 60)`,
rendered `f"{mins}:{secs:02d}"`. -/
def _format_seconds (seconds : Nat) : String :=
  toString (seconds / 60) ++ ":" ++
    (if seconds % 60 < 10 then "0" ++ toString (seconds % 60)
     else toString (seconds % 60))

/-- The message of the `RuntimeError` raised by `_get_token` when
`JIMINNY_TOKEN` is unset. -/
def TOKEN_ERROR_MESSAGE : String :=
  "JIMINNY_TOKEN environment variable is not set. Get your token from Jiminny browser DevTools: Network tab > any API request > Authorization header (copy the value after \x27Bearer \x27)."

/-- `_handle_error`: format API errors into helpful messages.  The
isinstance chain of the source becomes a case analysis on `PyErr`;
the `RuntimeError`-with-JIMINNY_TOKEN branch returns `str(e)`. -/
def _handle_error (e : PyErr) : String :=
  match e with
  | .tokenMissing => TOKEN_ERROR_MESSAGE
  | .httpStatus status =>
      if status = 401 then
        "Error: Authentication failed (401). Your token may have expired. Go to Jiminny in your browser, open DevTools > Network tab, refresh the page, and copy the new Bearer token."
      else if status = 403 then
        "Error: Permission denied (403). You don\x27t have access to this resource."
      else if status = 404 then
        "Error: Not found (404). Check that the conversation ID is correct."
      else if status = 429 then
        "Error: Rate limit exceeded (429). Wait a moment and try again."
      else
        "Error: Jiminny API returned status " ++ toString status ++ "."
  | .timeout => "Error: Request timed out. Try again."
  | .attrError m => "Error: AttributeError: " ++ m
  | .typeError m => "Error: TypeError: " ++ m
  | .valueError m => "Error: ValueError: " ++ m
  | .jsonDecode m => "Error: JSONDecodeError: " ++ m

/-- `_truncate`: return `text` unchanged when within `CHARACTER_LIMIT`,
else the first `CHARACTER_LIMIT` characters followed by the fixed
truncation notice. -/
def _truncate (text : String) : String :=
  if text.length ≤ CHARACTER_LIMIT then text
  else strTake text CHARACTER_LIMIT ++ TRUNCATION_SUFFIX

-- ---------------------------------------------------------------------------
-- The HTTP layer as an oracle
-- ---------------------------------------------------------------------------

/-- One upstream request either raises (connection error, timeout) or
produces a status code together with the result of parsing its body
(`resp.json()` may itself raise on malformed JSON). -/
inductive HttpOutcome where
  | raise (e : PyErr) : HttpOutcome
  | resp (status : Nat) (body : Except PyErr Json) : HttpOutcome

/-- `_api_get`: build auth headers (raising the missing-token
`RuntimeError` when the token is unset), issue the GET, call
`raise_for_status()` (httpx raises `HTTPStatusError` on any non-2xx
status) and parse the body.  Query parameters are folded into the URL
string handed to the oracle. -/
def _api_get (tokenSet : Bool) (oracle : String → HttpOutcome) (path : String) :
    Except PyErr Json :=
  if tokenSet = false then .error .tokenMissing
  else
    match oracle (API_BASE_URL ++ "/" ++ path) with
    | .raise e => .error e
    | .resp status body =>
        if status < 200 ∨ 300 ≤ status then .error (.httpStatus status)
        else body

-- ---------------------------------------------------------------------------
-- Text extraction helpers (server.py lines 419-470)
-- ---------------------------------------------------------------------------

/-- Any value read out of a JSON object is structurally smaller than the
object (termination measure for the recursive extractors). -/
theorem sizeOf_jget_lt (fields : List (String × Json)) (k : String) :
    sizeOf (jget fields k) < sizeOf (Json.obj fields) := by
  induction fields with
  | nil => simp [jget]
  | cons kv rest ih =>
      obtain ⟨k1, v⟩ := kv
      by_cases h : k1 = k
      · simp only [jget, if_pos h, Json.obj.sizeOf_spec]
        simp
        omega
      · simp only [jget, if_neg h, Json.obj.sizeOf_spec] at ih ⊢
        simp at ih ⊢
        omega

/-- The key loop of `_extract_text`: first key whose value is a string
with truthy `strip()`, returning the stripped value.  An absent key
reads as `None`, which fails the `isinstance(..., str)` test exactly
like `key in data` failing. -/
def firstGoodStrKey (fields : List (String × Json)) : List String → Option String
  | [] => none
  | k :: ks =>
      match jget fields k with
      | .str s => if pystrip s ≠ "" then some (pystrip s) else firstGoodStrKey fields ks
      | _ => firstGoodStrKey fields ks

/-- `_extract_text`: hunt for a human-readable string in an arbitrary
JSON tree (source lines 419-441). -/
def _extract_text (data : Json) (fallback_key : String) : String :=
  match data with
  | .str s => s
  | .obj fields =>
      match firstGoodStrKey fields
          ["text", "summary", "content", "description", "transcription", fallback_key] with
      | some t => t
      | none =>
          if containsKey fields "data" then
            _extract_text (jget fields "data") fallback_key
          else if containsKey fields "results" then
            _extract_text (jget fields "results") fallback_key
          else ""
  | .arr xs =>
      let texts := (xs.attach.map (fun x => _extract_text x.1 fallback_key)).filter
        (fun t => t ≠ "")
      if texts ≠ [] then pyJoin "\n" texts else ""
  | _ => ""
termination_by sizeOf data
decreasing_by
  · exact sizeOf_jget_lt fields "data"
  · exact sizeOf_jget_lt fields "results"
  · have := List.sizeOf_lt_of_mem x.2
    simp only [Json.arr.sizeOf_spec]
    omega

/-- The per-item processing of `_extract_list_items` on a JSON list:
strings contribute their stripped text when truthy, dicts contribute
their extracted text when truthy, everything else is skipped. -/
def listItemsFromArr : List Json → List String
  | [] => []
  | .str s :: rest =>
      if pystrip s ≠ "" then pystrip s :: listItemsFromArr rest
      else listItemsFromArr rest
  | .obj f :: rest =>
      if _extract_text (.obj f) "text" ≠ ""
      then _extract_text (.obj f) "text" :: listItemsFromArr rest
      else listItemsFromArr rest
  | _ :: rest => listItemsFromArr rest

/-- The nested-dict key probe of `_extract_list_items`: first key among
the candidates whose value is a dict. -/
def firstKeyObj (fields : List (String × Json)) : List String → Option Json
  | [] => none
  | k :: ks =>
      match jget fields k with
      | .obj g => some (.obj g)
      | _ => firstKeyObj fields ks

/-- The list key probe of `_extract_list_items`: first key among the
candidates whose value is a list. -/
def firstKeyArr (fields : List (String × Json)) : List String → Option Json
  | [] => none
  | k :: ks =>
      match jget fields k with
      | .arr l => some (.arr l)
      | _ => firstKeyArr fields ks

/-- A value found by `firstKeyObj` is smaller than the enclosing object. -/
theorem sizeOf_firstKeyObj_lt (fields : List (String × Json)) (ks : List String)
    (v : Json) (h : firstKeyObj fields ks = some v) :
    sizeOf v < sizeOf (Json.obj fields) := by
  induction ks with
  | nil => simp [firstKeyObj] at h
  | cons k ks ih =>
      rw [firstKeyObj] at h
      revert h
      cases hg : jget fields k with
      | obj g =>
          intro h
          have hv : v = jget fields k := by
            rw [hg]
            exact (Option.some.injEq _ _ ▸ h).symm
          rw [hv]
          exact sizeOf_jget_lt fields k
      | null => exact ih
      | bool b => exact ih
      | num n => exact ih
      | str s => exact ih
      | arr l => exact ih

/-- A value found by `firstKeyArr` is smaller than the enclosing object. -/
theorem sizeOf_firstKeyArr_lt (fields : List (String × Json)) (ks : List String)
    (v : Json) (h : firstKeyArr fields ks = some v) :
    sizeOf v < sizeOf (Json.obj fields) := by
  induction ks with
  | nil => simp [firstKeyArr] at h
  | cons k ks ih =>
      rw [firstKeyArr] at h
      revert h
      cases hg : jget fields k with
      | arr l =>
          intro h
          have hv : v = jget fields k := by
            rw [hg]
            exact (Option.some.injEq _ _ ▸ h).symm
          rw [hv]
          exact sizeOf_jget_lt fields k
      | null => exact ih
      | bool b => exact ih
      | num n => exact ih
      | str s => exact ih
      | obj g => exact ih

/-- `_extract_list_items`: extract a flat list of text items from an
API response (source lines 444-470). -/
def _extract_list_items (data : Json) : List String :=
  match data with
  | .arr xs => listItemsFromArr xs
  | .obj fields =>
      match h1 : firstKeyObj fields ["actionItems", "keyPoints", "key_points", "action_items"] with
      | some v => _extract_list_items v
      | none =>
          match h2 : firstKeyArr fields
              ["content", "items", "data", "results", "action_items", "actionItems",
               "key_points", "keyPoints", "points"] with
          | some v => _extract_list_items v
          | none =>
              if _extract_text (.obj fields) "text" ≠ "" then
                ((_extract_text (.obj fields) "text").splitOn "\n").filter
                    (fun l => pystrip l ≠ "") |>.map
                  (fun l => lstripSet (lstripSet (pystrip l) ['-', ' ']) ['*', ' '])
              else []
  | _ => []
termination_by sizeOf data
decreasing_by
  · exact sizeOf_firstKeyObj_lt fields _ v h1
  · exact sizeOf_firstKeyArr_lt fields _ v h2

-- ---------------------------------------------------------------------------
-- Conversation list formatter (server.py lines 124-176)
-- ---------------------------------------------------------------------------

/-- Python `len(x)` on JSON values: sized containers and strings have a
length, scalars raise `TypeError`. -/
def pyLen : Json → Except PyErr Nat
  | .arr l => .ok l.length
  | .str s => .ok s.length
  | .obj f => .ok f.length
  | _ => .error (.typeError "object of this type has no len()")

/-- Python slicing `x[:n]` on JSON values: strings and lists slice,
anything else raises `TypeError`. -/
def pySlice (j : Json) (n : Nat) : Except PyErr Json :=
  match j with
  | .str s => .ok (.str (strTake s n))
  | .arr l => .ok (.arr (l.take n))
  | _ => .error (.typeError "value is not subscriptable")

/-- One iteration of the `for r in results` loop of
`_format_conversation_list`: the markdown lines for a single
conversation record, including the trailing blank line.  A non-dict
record raises `AttributeError` (`r.get`). -/
def _conversation_entry (r : Json) : Except PyErr (List String) :=
  match r with
  | .obj f =>
      let title := dget f "title" (.str "Untitled")
      let conv_id := dget f "id" (.str "")
      let duration := dget f "durationForHumans" (.str "")
      match (if truthy (jget f "actualStartTime")
             then pySlice (dget f "actualStartTime" (.str "")) 10
             else .ok (.str "")) with
      | .error e => .error e
      | .ok start =>
          let organizer := match jget f "organizer" with
            | .obj g => dget g "name" (.str "")
            | _ => .str ""
          let prospect_name := match jget f "prospect" with
            | .obj g => dget g "name" (.str "")
            | _ => .str ""
          let category := match jget f "category" with
            | .obj g => dget g "name" (.str "")
            | _ => .str ""
          let provider := dget f "provider" (.str "")
          let is_summarized := dget f "isSummarized" (.bool false)
          let has_transcript := dget f "hasTranscription" (.bool false)
          let status := dget f "status" (.str "")
          .ok (["## " ++ pyStr title,
                "- **ID**: `" ++ pyStr conv_id ++ "`"]
            ++ (if truthy start then ["- **Date**: " ++ pyStr start] else [])
            ++ (if truthy duration then ["- **Duration**: " ++ pyStr duration] else [])
            ++ (if truthy organizer then ["- **Host**: " ++ pyStr organizer] else [])
            ++ (if truthy prospect_name then ["- **Contact**: " ++ pyStr prospect_name] else [])
            ++ (if truthy category then ["- **Category**: " ++ pyStr category] else [])
            ++ (if truthy provider then ["- **Provider**: " ++ pyStr provider] else [])
            ++ ["- **Transcript**: " ++ (if truthy has_transcript then "Yes" else "No")
                  ++ " | **Summary**: " ++ (if truthy is_summarized then "Yes" else "No")]
            ++ (if truthy status then ["- **Status**: " ++ pyStr status] else [])
            ++ [""])
  | _ => .error (.attrError "no attribute get")

/-- The record loop of `_format_conversation_list` over the whole
`results` list. -/
def conversationEntries : List Json → Except PyErr (List String)
  | [] => .ok []
  | r :: rest =>
      match _conversation_entry r with
      | .error e => .error e
      | .ok lines =>
          match conversationEntries rest with
          | .error e => .error e
          | .ok more => .ok (lines ++ more)

/-- `_format_conversation_list`: format the on-demand/search response as
markdown (source lines 124-176).  Iterating a truthy non-list `results`
value ends in an exception in Python (its elements, or the value
itself, do not support `.get`); this is modelled as a `TypeError`. -/
def _format_conversation_list (data : Json) : Except PyErr String :=
  match data with
  | .obj f =>
      let results := dget f "results" (.arr [])
      match dget f "pagination" (.obj []) with
      | .obj pf =>
          match (if containsKey pf "total" then .ok (jget pf "total")
                 else Except.map Json.num (pyLen results)) with
          | .error e => .error e
          | .ok total =>
              let current_page := dget pf "current" (.num 1)
              let next_page := dget pf "next" .null
              let header := "# Jiminny Conversations (page " ++ pyStr current_page
                ++ ", " ++ pyStr total ++ " total)"
              if truthy results = false then
                .ok (pyJoin "\n" [header, "", "No conversations found."])
              else
                match results with
                | .arr rs =>
                    match conversationEntries rs with
                    | .error e => .error e
                    | .ok entryLines =>
                        let lines := [header, ""] ++ entryLines
                          ++ (if truthy next_page
                              then ["_More results available — request page "
                                      ++ pyStr next_page ++ "._"]
                              else [])
                        .ok (_truncate (pyJoin "\n" lines))
                | _ => .error (.typeError "results is not iterable")
      | _ => .error (.attrError "pagination has no attribute get")
  | _ => .error (.attrError "no attribute get")

-- ---------------------------------------------------------------------------
-- Participant names (server.py lines 72-87)
-- ---------------------------------------------------------------------------

/-- The record loop of `_get_participant_names`: build the
participantId → display-name dict from a participants list.  Keys and
names are arbitrary JSON values, stored when both are truthy. -/
def participantFold : List Json → List (Json × Json) → List (Json × Json)
  | [], mapping => mapping
  | .obj f :: rest, mapping =>
      let pid := orJ (jget f "id") (orJ (jget f "participantId") (.str ""))
      let name := orJ (jget f "name") (orJ (jget f "displayName")
        (orJ (jget f "email") (.str "")))
      if truthy pid && truthy name then
        participantFold rest (dictSet mapping pid name)
      else participantFold rest mapping
  | _ :: rest, mapping => participantFold rest mapping

/-- `_get_participant_names`: best-effort participantId → name mapping;
every failure (including the `AttributeError` of `.get` on a non-dict
payload, which in Python aborts before any insertion) yields the empty
mapping, and a non-list participants value is skipped. -/
def _get_participant_names (tokenSet : Bool) (oracle : String → HttpOutcome)
    (conversation_id : String) : List (Json × Json) :=
  match _api_get tokenSet oracle ("activity/" ++ conversation_id ++ "/participants") with
  | .error _ => []
  | .ok data =>
      match data with
      | .arr l => participantFold l []
      | .obj f =>
          match dget f "participants" (dget f "data" (dget f "results" (.arr []))) with
          | .arr l => participantFold l []
          | _ => []
      | _ => []

-- ---------------------------------------------------------------------------
-- Transcript tool (server.py lines 247-321)
-- ---------------------------------------------------------------------------

/-- The segment container probe of `jiminny_get_transcript` (lines
263-267): a list payload is the segment list itself; a dict payload
yields the first truthy of `segments`/`entries`/`data`/`results`,
defaulting to `[]`; anything else yields `[]`. -/
def pick_segments (data : Json) : Json :=
  match data with
  | .arr l => .arr l
  | .obj f =>
      orJ (jget f "segments") (orJ (jget f "entries")
        (orJ (jget f "data") (orJ (jget f "results") (.arr []))))
  | _ => .arr []

/-- The direct-string probe of `jiminny_get_transcript` (lines 270-272):
first of the given keys present with a string value (absent keys read
as `None` and fail `isinstance` identically). -/
def firstStrKey (fields : List (String × Json)) : List String → Option String
  | [] => none
  | k :: ks =>
      match jget fields k with
      | .str s => some s
      | _ => firstStrKey fields ks

/-- The speaker resolution of lines 296-303: resolved name if the id is
in `names`, else the already-assigned auto label, else a fresh
`Speaker N` label (incrementing the counter and extending the auto
map). -/
def resolve_speaker (names : List (Json × Json)) (auto_names : List (Json × String))
    (speaker_counter : Nat) (pid : Json) : Json × List (Json × String) × Nat :=
  match dictGet? names pid with
  | some nm => (nm, auto_names, speaker_counter)
  | none =>
      match dictGet? auto_names pid with
      | some lab => (.str lab, auto_names, speaker_counter)
      | none =>
          (.str ("Speaker " ++ toString (speaker_counter + 1)),
           dictSet auto_names pid ("Speaker " ++ toString (speaker_counter + 1)),
           speaker_counter + 1)

/-- The `for seg in segments` loop of `jiminny_get_transcript` (lines
285-311).  Returns the emitted lines, the final auto-label map, the
final counter, and — as an observation of the loop's `speaker`
variable — the resolved speaker of each processed segment in order. -/
def transcript_segments_loop (names : List (Json × Json)) (segs : List Json)
    (auto_names : List (Json × String)) (speaker_counter : Nat) (prev : Option Json) :
    Except PyErr (List String × List (Json × String) × Nat × List Json) :=
  match segs with
  | [] => .ok ([], auto_names, speaker_counter, [])
  | seg :: rest =>
      match seg with
      | .obj f =>
          match orJ (jget f "transcript") (orJ (jget f "text")
              (orJ (jget f "content") (.str ""))) with
          | .str t =>
              if pystrip t = "" then
                transcript_segments_loop names rest auto_names speaker_counter prev
              else
                let pid := orJ (jget f "participantId") (orJ (jget f "speaker")
                  (.str "unknown"))
                let start := orJ (jget f "startsAt") (orJ (jget f "startTime")
                  (orJ (jget f "start") (.num 0)))
                match resolve_speaker names auto_names speaker_counter pid with
                | (speaker, auto2, counter2) =>
                    match (if truthy start
                           then Except.map _format_seconds (pyFloat start)
                           else .ok "") with
                    | .error e => .error e
                    | .ok timestamp =>
                        let isNew : Bool := match prev with
                          | none => true
                          | some pv => !jeq speaker pv
                        let line := if isNew then
                            "\n**" ++ pyStr speaker ++ "** [" ++ timestamp ++ "]:\n" ++ t
                          else t
                        match transcript_segments_loop names rest auto2 counter2
                            (if isNew then some speaker else prev) with
                        | .error e => .error e
                        | .ok (lns, autoF, cntF, trace) =>
                            .ok (line :: lns, autoF, cntF, speaker :: trace)
          | _ =>
              -- a truthy non-string text value: `.strip()` raises; the
              -- falsy case cannot reach this arm (the or-chain default
              -- is the string "")
              .error (.attrError "no attribute strip")
      | _ => transcript_segments_loop names rest auto_names speaker_counter prev

/-- `", ".join(names.values())`: Python `str.join` raises `TypeError`
as soon as a non-string value is encountered. -/
def strValues : List Json → Except PyErr (List String)
  | [] => .ok []
  | .str s :: rest => Except.map (fun l => s :: l) (strValues rest)
  | _ :: _ => .error (.typeError "sequence item is not str")

/-- Python `list.insert(2, x)` (appends when the list is shorter). -/
def insertAt2 (l : List String) (x : String) : List String :=
  l.take 2 ++ [x] ++ l.drop 2

/-- The body of `jiminny_get_transcript` inside its `try` (lines
259-318). -/
def jiminny_get_transcript_body (tokenSet : Bool) (oracle : String → HttpOutcome)
    (conversation_id : String) : Except PyErr String :=
  match _api_get tokenSet oracle ("activity/" ++ conversation_id ++ "/transcription") with
  | .error e => .error e
  | .ok data =>
      let segments := pick_segments data
      match (match data with
             | .obj f =>
                 if truthy segments = false then
                   firstStrKey f ["transcript", "text", "content", "transcription"]
                 else none
             | _ => none) with
      | some s => .ok (_truncate ("# Transcript\n\n" ++ s))
      | none =>
          match segments with
          | .arr (s0 :: ss) =>
              let names := _get_participant_names tokenSet oracle conversation_id
              match transcript_segments_loop names (s0 :: ss) [] 0 none with
              | .error e => .error e
              | .ok (lns, autoF, _, _) =>
                  let lines := ["# Transcript", ""] ++ lns
                  if names.isEmpty = false then
                    match strValues (names.map Prod.snd) with
                    | .error e => .error e
                    | .ok vs =>
                        .ok (_truncate (pyJoin "\n" (insertAt2 lines
                          ("_Participants: " ++ pyJoin ", " vs ++ "_\n"))))
                  else if autoF.isEmpty = false then
                    .ok (_truncate (pyJoin "\n" (insertAt2 lines
                      ("_Note: " ++ toString autoF.length
                        ++ " speakers detected (names could not be resolved)_\n"))))
                  else .ok (_truncate (pyJoin "\n" lines))
          | _ => .ok (_truncate ("# Transcript\n\n" ++ pyStr data))

/-- `jiminny_get_transcript`: the whole body runs inside
`try`/`except Exception`, so every exception becomes a normal string
result through `_handle_error`. -/
def jiminny_get_transcript (tokenSet : Bool) (oracle : String → HttpOutcome)
    (conversation_id : String) : Except PyErr String :=
  match jiminny_get_transcript_body tokenSet oracle conversation_id with
  | .ok s => .ok s
  | .error e => .ok (_handle_error e)

-- ---------------------------------------------------------------------------
-- List conversations tool (server.py lines 217-234)
-- ---------------------------------------------------------------------------

/-- The body of `jiminny_list_conversations` inside its `try` (lines
230-232).  The `page` query parameter is folded into the oracle's URL
key. -/
def jiminny_list_conversations_body (tokenSet : Bool) (oracle : String → HttpOutcome)
    (page : Nat) : Except PyErr String :=
  match _api_get tokenSet oracle ("page/on-demand?page=" ++ toString page) with
  | .error e => .error e
  | .ok data => _format_conversation_list data

/-- `jiminny_list_conversations`: the whole body runs inside
`try`/`except Exception`. -/
def jiminny_list_conversations (tokenSet : Bool) (oracle : String → HttpOutcome)
    (page : Nat) : Except PyErr String :=
  match jiminny_list_conversations_body tokenSet oracle page with
  | .ok s => .ok s
  | .error e => .ok (_handle_error e)

-- ---------------------------------------------------------------------------
-- Summary tool (server.py lines 334-412)
-- ---------------------------------------------------------------------------

/-- `path_prefixes` of `jiminny_get_summary` (line 350). -/
def path_prefixes (conversation_id : String) : List String :=
  ["activity/" ++ conversation_id, "conference/" ++ conversation_id]

/-- The `for prefix in path_prefixes` loop of `_try_get` (lines
357-364): try each URL until a 200, else report the last status with no
data.  A raised request or a failing `resp.json()` propagates.  `last`
carries the status of the previous attempt (`resp` stays bound after
the loop in Python; it cannot be `none` at the fall-through since the
prefix list is non-empty). -/
def try_get_loop (oracle : String → HttpOutcome) (urls : List String)
    (last : Option Nat) : Except PyErr (Nat × Option Json) :=
  match urls with
  | [] =>
      match last with
      | some st => .ok (st, none)
      | none => .error (.valueError "resp unbound")
  | u :: rest =>
      match oracle u with
      | .raise e => .error e
      | .resp status body =>
          if status = 200 then
            match body with
            | .error e => .error e
            | .ok j => .ok (200, some j)
          else try_get_loop oracle rest (some status)

/-- `_try_get(suffix)` (lines 355-364), with the URLs built exactly as
`f"{API_BASE_URL}/{prefix}/{suffix}"`. -/
def _try_get (oracle : String → HttpOutcome) (conversation_id : String)
    (suffix : String) : Except PyErr (Nat × Option Json) :=
  try_get_loop oracle
    ((path_prefixes conversation_id).map
      (fun p => API_BASE_URL ++ "/" ++ p ++ "/" ++ suffix))
    none

/-- The Summary section of `jiminny_get_summary` (lines 367-377): one
appended line; any exception in the section, and any non-200/falsy
result, degrades to the fixed placeholder. -/
def summary_section_lines (oracle : String → HttpOutcome)
    (conversation_id : String) : List String :=
  match _try_get oracle conversation_id "transcription-summary" with
  | .error _ =>
      ["_Summary not available via API. Use jiminny_get_transcript and ask for a summary in chat._"]
  | .ok (status, data?) =>
      match data? with
      | some data =>
          if status = 200 ∧ truthy data = true then
            if _extract_text data "summary" ≠ "" then [_extract_text data "summary"]
            else ["_No summary available._"]
          else
            ["_Summary not available via API. Use jiminny_get_transcript and ask for a summary in chat._"]
      | none =>
          ["_Summary not available via API. Use jiminny_get_transcript and ask for a summary in chat._"]

/-- The Action Items section (lines 380-394). -/
def action_items_section_lines (oracle : String → HttpOutcome)
    (conversation_id : String) : List String :=
  match _try_get oracle conversation_id "action-items" with
  | .error _ => ["_Action items not available._"]
  | .ok (status, data?) =>
      match data? with
      | some data =>
          if status = 200 ∧ truthy data = true then
            if _extract_list_items data ≠ [] then
              (_extract_list_items data).map (fun item => "- " ++ item)
            else ["_No action items found._"]
          else ["_Action items not available._"]
      | none => ["_Action items not available._"]

/-- The Key Points section (lines 397-410); note the two distinct
placeholders for the non-200 and the exception case. -/
def key_points_section_lines (oracle : String → HttpOutcome)
    (conversation_id : String) : List String :=
  match _try_get oracle conversation_id "key-points" with
  | .error _ => ["_Key points not available via API._"]
  | .ok (status, data?) =>
      match data? with
      | some data =>
          if status = 200 ∧ truthy data = true then
            if _extract_list_items data ≠ [] then
              (_extract_list_items data).map (fun point => "- " ++ point)
            else ["_No key points found._"]
          else
            ["_Key points not available via API. Use jiminny_get_transcript and ask for key points in chat._"]
      | none =>
          ["_Key points not available via API. Use jiminny_get_transcript and ask for key points in chat._"]

/-- `jiminny_get_summary` (lines 334-412).  Unlike the other two tools,
its body is NOT wrapped in a `try`/`except`: only the three per-section
lookups are.  `headers = _auth_headers()` (line 353) runs outside any
`try`, so a missing token propagates the `RuntimeError` to the host.
With the token set, the three sections are total and the handler
returns the truncated joined report. -/
def jiminny_get_summary (tokenSet : Bool) (oracle : String → HttpOutcome)
    (conversation_id : String) : Except PyErr String :=
  if tokenSet = false then .error .tokenMissing
  else
    .ok (_truncate (pyJoin "\n"
      (["# Conversation Summary", "", "## Summary"]
        ++ summary_section_lines oracle conversation_id
        ++ [""]
        ++ ["## Action Items"]
        ++ action_items_section_lines oracle conversation_id
        ++ [""]
        ++ ["## Key Points"]
        ++ key_points_section_lines oracle conversation_id)))

-- ---------------------------------------------------------------------------
-- Spec-side definitions used to state the claims
-- ---------------------------------------------------------------------------

/-- `pat` occurs as a contiguous substring of `s`. -/
def containsStr (pat s : String) : Prop := ∃ pre post, s = pre ++ pat ++ post

/-- The spec's reading of the container probe: the first TRUTHY value in
the candidate list, not the first present one. -/
def firstTruthySpec : List Json → Json → Json
  | [], d => d
  | j :: rest, d => if truthy j then j else firstTruthySpec rest d

/-- The participant ids of a segment list in order of first appearance,
extending an already-seen accumulator. -/
def firstSeenAux : List String → List String → List String
  | [], acc => acc
  | p :: rest, acc =>
      if p ∈ acc then firstSeenAux rest acc else firstSeenAux rest (acc ++ [p])

/-- Index of the first occurrence of a string in a list (0 when absent). -/
def idxOfS (a : String) : List String → Nat
  | [] => 0
  | b :: rest => if b = a then 0 else idxOfS a rest + 1

/-- The auto-label dict corresponding to a first-seen list: the i-th
distinct id (counting from `n`) is labelled `Speaker (n+i+1)`. -/
def mkAuto : List String → Nat → List (Json × String)
  | [], _ => []
  | p :: rest, n => (Json.str p, "Speaker " ++ toString (n + 1)) :: mkAuto rest (n + 1)

/-- A transcript segment with a participant id and a text. -/
def mkSeg (p t : String) : Json :=
  .obj [("participantId", .str p), ("text", .str t)]

/-- A transcript segment with a participant id, a text and a
`startsAt` offset. -/
def mkSeg3 (p t : String) (s : Nat) : Json :=
  .obj [("participantId", .str p), ("text", .str t), ("startsAt", .num s)]

/-- The timestamp the loop renders for a `startsAt` offset `s`:
`M:SS` when nonzero, empty when zero (the offset is falsy). -/
def tsOf (s : Nat) : String := if s = 0 then "" else _format_seconds s

-- ---------------------------------------------------------------------------
-- Claim C2: truncation
-- ---------------------------------------------------------------------------

/-- Claim C2: for every string longer than the 25,000-character budget,
`_truncate` returns a string of length budget + suffix length that ends
with the truncation marker; shorter strings pass through unchanged. -/
theorem truncate_spec (s : String) :
    (s.length ≤ CHARACTER_LIMIT → _truncate s = s) ∧
    (CHARACTER_LIMIT < s.length →
      (_truncate s).length = CHARACTER_LIMIT + TRUNCATION_SUFFIX.length ∧
      ∃ t, _truncate s = t ++ TRUNCATION_SUFFIX) := by
  constructor
  · intro h
    simp [_truncate, h]
  · intro h
    have hn : ¬ s.length ≤ CHARACTER_LIMIT := by omega
    refine ⟨?_, strTake s CHARACTER_LIMIT, by simp [_truncate, hn]⟩
    have hdata : s.data.length = s.length := rfl
    simp [_truncate, hn, String.length_append, strTake, String.length_mk,
      List.length_take]
    omega

/-- A 25,001-character input for the truncation witness. -/
def c2LongString : String := String.mk (List.replicate 25001 'a')

/-- The length of the witness input. -/
theorem c2LongString_length : c2LongString.length = 25001 := by
  rw [c2LongString, String.length_mk, List.length_replicate]

/-- Witness for `truncate_spec` at a 25,001-character string and at a
short string. -/
theorem truncate_spec_witness :
    ((_truncate c2LongString).length
        = CHARACTER_LIMIT + TRUNCATION_SUFFIX.length ∧
      ∃ t, _truncate c2LongString = t ++ TRUNCATION_SUFFIX) ∧
    _truncate "short" = "short" :=
  ⟨(truncate_spec c2LongString).2
      (by rw [c2LongString_length]; norm_num [CHARACTER_LIMIT]),
   (truncate_spec "short").1 (by decide)⟩

-- ---------------------------------------------------------------------------
-- Claim C7: empty conversation list
-- ---------------------------------------------------------------------------

/-- Claim C7: a conversation-list response with an empty `results`
sequence formats to exactly the page header line, a blank line, and the
single line `No conversations found.` — for any pagination values, and
also when `pagination` is absent entirely. -/
theorem empty_results_message :
    (∀ total current : Nat,
      _format_conversation_list (Json.obj [("results", Json.arr []),
        ("pagination", Json.obj [("total", Json.num total), ("current", Json.num current)])]) =
      .ok ("# Jiminny Conversations (page " ++ toString current ++ ", "
            ++ toString total ++ " total)" ++ "\n\n" ++ "No conversations found.")) ∧
    _format_conversation_list (Json.obj [("results", Json.arr [])]) =
      .ok ("# Jiminny Conversations (page 1, 0 total)\n\nNo conversations found.") := by
  constructor
  · intro total current
    simp [_format_conversation_list, dget, containsKey, jget, truthy, pyStr, pyJoin,
      String.append_assoc]
  · rfl

-- ---------------------------------------------------------------------------
-- Claim C8: status-code mapping
-- ---------------------------------------------------------------------------

/-- Counterexample to claim C8 as stated: 403 is not among the statuses
the claim singles out (401, 404, 429), yet its message is NOT the
generic `status N` message — the source special-cases it. -/
theorem status_403_not_generic :
    _handle_error (.httpStatus 403) ≠
      "Error: Jiminny API returned status " ++ toString 403 ++ "." := by decide

/-- Claim C8 (amended): 401 maps to a message containing
`Authentication failed`, 404 to one containing `Not found`, 429 to one
containing `Rate limit`; 403 has its own fixed permission-denied
message; every other status yields the generic message naming it. -/
theorem handle_error_status_mapping :
    containsStr "Authentication failed" (_handle_error (.httpStatus 401)) ∧
    containsStr "Not found" (_handle_error (.httpStatus 404)) ∧
    containsStr "Rate limit" (_handle_error (.httpStatus 429)) ∧
    _handle_error (.httpStatus 403) =
      "Error: Permission denied (403). You don\x27t have access to this resource." ∧
    ∀ status : Nat, status ≠ 401 → status ≠ 403 → status ≠ 404 → status ≠ 429 →
      _handle_error (.httpStatus status) =
        "Error: Jiminny API returned status " ++ toString status ++ "." := by
  refine ⟨⟨"Error: ", " (401). Your token may have expired. Go to Jiminny in your browser, open DevTools > Network tab, refresh the page, and copy the new Bearer token.", by rfl⟩,
    ⟨"Error: ", " (404). Check that the conversation ID is correct.", by rfl⟩,
    ⟨"Error: ", " exceeded (429). Wait a moment and try again.", by rfl⟩,
    by rfl, ?_⟩
  intro status h1 h2 h3 h4
  simp [_handle_error, h1, h2, h3, h4]

/-- Witness for `handle_error_status_mapping` at status 500. -/
theorem handle_error_status_mapping_witness :
    _handle_error (.httpStatus 500) =
      "Error: Jiminny API returned status " ++ toString 500 ++ "." :=
  handle_error_status_mapping.2.2.2.2 500 (by decide) (by decide) (by decide) (by decide)

-- ---------------------------------------------------------------------------
-- Claim C9: extractor reference cases
-- ---------------------------------------------------------------------------

/-- Claim C9: the list extractor on
`{"actionItems": {"content": ["x", "y"]}}` yields `["x", "y"]`, and the
text extractor on `{"summary": "  done  "}` yields the trimmed
`"done"`. -/
theorem extractors_reference_cases :
    _extract_list_items (Json.obj [("actionItems",
      Json.obj [("content", Json.arr [Json.str "x", Json.str "y"])])]) = ["x", "y"] ∧
    _extract_text (Json.obj [("summary", Json.str "  done  ")]) "text" = "done" := by
  constructor
  · simp [_extract_list_items, firstKeyObj, firstKeyArr, jget, listItemsFromArr, pystrip]
  · simp [_extract_text, firstGoodStrKey, jget, pystrip]

-- ---------------------------------------------------------------------------
-- Claim C10: container-key probing by truthiness
-- ---------------------------------------------------------------------------

/-- Claim C10: the transcript container probe selects the first of
`segments`/`entries`/`data`/`results` whose value is truthy — not the
first key merely present — so a higher-priority key holding an empty
list is skipped in favour of a non-empty lower-priority list. -/
theorem segment_container_probe :
    (∀ f : List (String × Json), pick_segments (Json.obj f) =
      firstTruthySpec [jget f "segments", jget f "entries", jget f "data", jget f "results"]
        (Json.arr [])) ∧
    (∀ (f : List (String × Json)) (l : List Json), l ≠ [] →
      jget f "segments" = Json.arr [] → jget f "entries" = Json.arr l →
      pick_segments (Json.obj f) = Json.arr l) := by
  refine ⟨fun f => rfl, ?_⟩
  intro f l hl h1 h2
  cases l with
  | nil => exact absurd rfl hl
  | cons x xs => simp [pick_segments, orJ, h1, h2, truthy]

/-- Witness for `segment_container_probe` on a payload whose `segments`
key holds an empty list and whose `entries` key holds one segment. -/
theorem segment_container_probe_witness :
    pick_segments (Json.obj [("segments", Json.arr []),
      ("entries", Json.arr [Json.str "s"])]) = Json.arr [Json.str "s"] :=
  segment_container_probe.2 [("segments", Json.arr []), ("entries", Json.arr [Json.str "s"])]
    [Json.str "s"] (by simp) rfl rfl

-- ---------------------------------------------------------------------------
-- Claims C5 and C6: transcript segment rendering
-- ---------------------------------------------------------------------------

/-- Stripping the empty string gives the empty string. -/
theorem pystrip_empty : pystrip "" = "" := rfl

/-- A string whose `strip()` is non-empty is itself non-empty. -/
theorem ne_empty_of_pystrip {t : String} (ht : pystrip t ≠ "") : t ≠ "" :=
  fun h => ht (by rw [h]; exact pystrip_empty)

/-- Claim C5: consecutive segments of the same resolved speaker merge
into one block — a single `**Speaker** [timestamp]:` header followed by
the bare texts — while a change of resolved speaker emits a new header
line. -/
theorem same_speaker_merge :
    (∀ (p t1 t2 : String) (s1 s2 : Nat), p ≠ "" →
      pystrip t1 ≠ "" → pystrip t2 ≠ "" →
      transcript_segments_loop [] [mkSeg3 p t1 s1, mkSeg3 p t2 s2] [] 0 none =
        .ok (["\n**Speaker 1** [" ++ tsOf s1 ++ "]:\n" ++ t1, t2],
             [(Json.str p, "Speaker 1")], 1,
             [Json.str "Speaker 1", Json.str "Speaker 1"])) ∧
    (∀ (p q t1 t2 : String) (s1 s2 : Nat), p ≠ "" → q ≠ "" → p ≠ q →
      pystrip t1 ≠ "" → pystrip t2 ≠ "" →
      transcript_segments_loop [] [mkSeg3 p t1 s1, mkSeg3 q t2 s2] [] 0 none =
        .ok (["\n**Speaker 1** [" ++ tsOf s1 ++ "]:\n" ++ t1,
              "\n**Speaker 2** [" ++ tsOf s2 ++ "]:\n" ++ t2],
             [(Json.str p, "Speaker 1"), (Json.str q, "Speaker 2")], 2,
             [Json.str "Speaker 1", Json.str "Speaker 2"])) := by
  constructor
  · intro p t1 t2 s1 s2 hp h1 h2
    have ht1 : t1 ≠ "" := ne_empty_of_pystrip h1
    have ht2 : t2 ≠ "" := ne_empty_of_pystrip h2
    have hs1 : "Speaker " ++ toString (1 : Nat) = "Speaker 1" := rfl
    by_cases hc1 : s1 = 0 <;> by_cases hc2 : s2 = 0 <;>
      simp [transcript_segments_loop, mkSeg3, jget, orJ, truthy, h1, h2, ht1, ht2, hp,
        resolve_speaker, dictGet?, dictSet, pyStr, hs1, jeq, hc1, hc2, tsOf,
        pyFloat, Except.map]
  · intro p q t1 t2 s1 s2 hp hq hpq h1 h2
    have ht1 : t1 ≠ "" := ne_empty_of_pystrip h1
    have ht2 : t2 ≠ "" := ne_empty_of_pystrip h2
    have hs1 : "Speaker " ++ toString (1 : Nat) = "Speaker 1" := rfl
    have hs2 : "Speaker " ++ toString (2 : Nat) = "Speaker 2" := rfl
    have hqp : ¬ (q = p) := fun h => hpq h.symm
    by_cases hc1 : s1 = 0 <;> by_cases hc2 : s2 = 0 <;>
      simp [transcript_segments_loop, mkSeg3, jget, orJ, truthy, h1, h2, ht1, ht2, hp, hq,
        hpq, hqp, resolve_speaker, dictGet?, dictSet, pyStr, hs1, hs2, jeq, hc1, hc2, tsOf,
        pyFloat, Except.map]

/-- Witness for `same_speaker_merge`: concrete segments `(a,"hi")` and
`(a,"there")` render as one block, and `(a,"hi")`/`(b,"there")` as two. -/
theorem same_speaker_merge_witness :
    transcript_segments_loop [] [mkSeg3 "a" "hi" 5, mkSeg3 "a" "there" 9] [] 0 none =
      .ok (["\n**Speaker 1** [" ++ tsOf 5 ++ "]:\nhi", "there"],
           [(Json.str "a", "Speaker 1")], 1,
           [Json.str "Speaker 1", Json.str "Speaker 1"]) ∧
    transcript_segments_loop [] [mkSeg3 "a" "hi" 5, mkSeg3 "b" "there" 9] [] 0 none =
      .ok (["\n**Speaker 1** [" ++ tsOf 5 ++ "]:\nhi",
            "\n**Speaker 2** [" ++ tsOf 9 ++ "]:\nthere"],
           [(Json.str "a", "Speaker 1"), (Json.str "b", "Speaker 2")], 2,
           [Json.str "Speaker 1", Json.str "Speaker 2"]) :=
  ⟨same_speaker_merge.1 "a" "hi" "there" 5 9 (by decide) (by decide) (by decide),
   same_speaker_merge.2 "a" "b" "hi" "there" 5 9 (by decide) (by decide) (by decide)
     (by decide) (by decide)⟩

/-- Counterexample to claim C6 as stated: on a segment with
`startsAt = 0` and `startTime = 125`, the claim predicts the
first-present key (`startsAt`, i.e. offset 0) rendered as `0:00`; the
code skips the falsy `startsAt`, uses 125, and renders `2:05`. -/
theorem timestamp_zero_not_rendered :
    transcript_segments_loop []
        [Json.obj [("participantId", Json.str "p"), ("text", Json.str "hi"),
          ("startsAt", Json.num 0), ("startTime", Json.num 125)]] [] 0 none =
      .ok (["\n**Speaker 1** [2:05]:\nhi"], [(Json.str "p", "Speaker 1")], 1,
           [Json.str "Speaker 1"]) ∧
    ("\n**Speaker 1** [2:05]:\nhi" : String) ≠ "\n**Speaker 1** [0:00]:\nhi" :=
  ⟨rfl, by decide⟩

/-- Claim C6 (amended): the start offset is the first TRUTHY of
`startsAt`/`startTime`/`start` (falsy values such as 0 are skipped),
defaulting to 0; a nonzero offset renders as `M:SS` in the header and a
zero or missing offset renders as the empty timestamp. -/
theorem start_offset_selection :
    (∀ (p t : String) (n : Nat), p ≠ "" → pystrip t ≠ "" →
      transcript_segments_loop [] [mkSeg3 p t n] [] 0 none =
        .ok (["\n**Speaker 1** [" ++ tsOf n ++ "]:\n" ++ t],
             [(Json.str p, "Speaker 1")], 1, [Json.str "Speaker 1"])) ∧
    (∀ (p t : String), p ≠ "" → pystrip t ≠ "" →
      transcript_segments_loop [] [mkSeg p t] [] 0 none =
        .ok (["\n**Speaker 1** []:\n" ++ t],
             [(Json.str p, "Speaker 1")], 1, [Json.str "Speaker 1"])) ∧
    (∀ (p t : String) (n : Nat), p ≠ "" → pystrip t ≠ "" → n ≠ 0 →
      transcript_segments_loop []
          [Json.obj [("participantId", Json.str p), ("text", Json.str t),
            ("startsAt", Json.num 0), ("startTime", Json.num n)]] [] 0 none =
        .ok (["\n**Speaker 1** [" ++ _format_seconds n ++ "]:\n" ++ t],
             [(Json.str p, "Speaker 1")], 1, [Json.str "Speaker 1"])) ∧
    tsOf 0 = "" ∧
    (∀ n : Nat, n ≠ 0 → tsOf n = _format_seconds n) ∧
    (∀ m s : Nat, s < 60 → _format_seconds (60 * m + s) =
      toString m ++ ":" ++ (if s < 10 then "0" ++ toString s else toString s)) := by
  refine ⟨?_, ?_, ?_, rfl, ?_, ?_⟩
  · intro p t n hp ht
    have ht' : t ≠ "" := ne_empty_of_pystrip ht
    have hs1 : "Speaker " ++ toString (1 : Nat) = "Speaker 1" := rfl
    by_cases hc : n = 0 <;>
      simp [transcript_segments_loop, mkSeg3, jget, orJ, truthy, ht, ht', hp,
        resolve_speaker, dictGet?, dictSet, pyStr, hs1, hc, tsOf, pyFloat, Except.map]
  · intro p t hp ht
    have ht' : t ≠ "" := ne_empty_of_pystrip ht
    have hs1 : "Speaker " ++ toString (1 : Nat) = "Speaker 1" := rfl
    simp [transcript_segments_loop, mkSeg, jget, orJ, truthy, ht, ht', hp,
      resolve_speaker, dictGet?, dictSet, pyStr, hs1]
  · intro p t n hp ht hn
    have ht' : t ≠ "" := ne_empty_of_pystrip ht
    have hs1 : "Speaker " ++ toString (1 : Nat) = "Speaker 1" := rfl
    simp [transcript_segments_loop, jget, orJ, truthy, ht, ht', hp, hn,
      resolve_speaker, dictGet?, dictSet, pyStr, hs1, pyFloat, Except.map]
  · intro n hn
    simp [tsOf, hn]
  · intro m s hs
    have hdiv : (60 * m + s) / 60 = m := by
      rw [Nat.mul_add_div (by norm_num)]
      rw [Nat.div_eq_of_lt hs]
      omega
    have hmod : (60 * m + s) % 60 = s := by
      rw [Nat.mul_add_mod]
      exact Nat.mod_eq_of_lt hs
    simp [_format_seconds, hdiv, hmod]

/-- Witness for `start_offset_selection` at concrete inputs (offset 125
renders as 2:05; a missing offset renders empty). -/
theorem start_offset_selection_witness :
    transcript_segments_loop []
        [Json.obj [("participantId", Json.str "a"), ("text", Json.str "hi"),
          ("startsAt", Json.num 0), ("startTime", Json.num 125)]] [] 0 none =
      .ok (["\n**Speaker 1** [" ++ _format_seconds 125 ++ "]:\nhi"],
           [(Json.str "a", "Speaker 1")], 1, [Json.str "Speaker 1"]) ∧
    transcript_segments_loop [] [mkSeg "a" "hi"] [] 0 none =
      .ok (["\n**Speaker 1** []:\nhi"],
           [(Json.str "a", "Speaker 1")], 1, [Json.str "Speaker 1"]) :=
  ⟨start_offset_selection.2.2.1 "a" "hi" 125 (by decide) (by decide) (by decide),
   start_offset_selection.2.1 "a" "hi" (by decide) (by decide)⟩

-- ---------------------------------------------------------------------------
-- Claim C1: exception propagation at the tool boundary
-- ---------------------------------------------------------------------------

/-- Counterexample to claim C1 as stated: with the token unset,
`jiminny_get_summary` propagates the missing-token `RuntimeError` to
the host instead of returning a string — `headers = _auth_headers()`
(source line 353) runs outside any `try`/`except`. -/
theorem get_summary_token_unset_raises :
    jiminny_get_summary false (fun _ => HttpOutcome.raise PyErr.timeout) "c" =
      Except.error PyErr.tokenMissing := rfl

/-- Claim C1 (amended): `jiminny_list_conversations` and
`jiminny_get_transcript` return a string for every input and every
upstream behaviour (their whole bodies sit in `try`/`except`);
`jiminny_get_summary` returns a string for every upstream behaviour
provided the token is set. -/
theorem tool_handlers_return_strings :
    ∀ (tokenSet : Bool) (oracle : String → HttpOutcome) (page : Nat) (cid : String),
      (∃ s, jiminny_list_conversations tokenSet oracle page = .ok s) ∧
      (∃ s, jiminny_get_transcript tokenSet oracle cid = .ok s) ∧
      (tokenSet = true → ∃ s, jiminny_get_summary tokenSet oracle cid = .ok s) := by
  intro tokenSet oracle page cid
  refine ⟨?_, ?_, ?_⟩
  · cases h : jiminny_list_conversations_body tokenSet oracle page with
    | ok s => exact ⟨s, by simp [jiminny_list_conversations, h]⟩
    | error e => exact ⟨_handle_error e, by simp [jiminny_list_conversations, h]⟩
  · cases h : jiminny_get_transcript_body tokenSet oracle cid with
    | ok s => exact ⟨s, by simp [jiminny_get_transcript, h]⟩
    | error e => exact ⟨_handle_error e, by simp [jiminny_get_transcript, h]⟩
  · intro ht
    subst ht
    exact ⟨_, rfl⟩

/-- Witness for `tool_handlers_return_strings` with the token set and
an upstream that raises a timeout on every request. -/
theorem tool_handlers_return_strings_witness :
    (∃ s, jiminny_list_conversations true (fun _ => HttpOutcome.raise PyErr.timeout) 1
        = .ok s) ∧
    (∃ s, jiminny_get_transcript true (fun _ => HttpOutcome.raise PyErr.timeout) "c"
        = .ok s) ∧
    (∃ s, jiminny_get_summary true (fun _ => HttpOutcome.raise PyErr.timeout) "c"
        = .ok s) :=
  ⟨(tool_handlers_return_strings true (fun _ => HttpOutcome.raise PyErr.timeout) 1 "c").1,
   (tool_handlers_return_strings true (fun _ => HttpOutcome.raise PyErr.timeout) 1 "c").2.1,
   (tool_handlers_return_strings true (fun _ => HttpOutcome.raise PyErr.timeout) 1 "c").2.2 rfl⟩

-- ---------------------------------------------------------------------------
-- Claim C4: auto-label assignment in first-seen order
-- ---------------------------------------------------------------------------

/-- `firstSeenAux` only ever extends its accumulator. -/
theorem firstSeenAux_append (ps : List String) (acc : List String) :
    ∃ t, firstSeenAux ps acc = acc ++ t := by
  induction ps generalizing acc with
  | nil => exact ⟨[], by simp [firstSeenAux]⟩
  | cons p rest ih =>
      by_cases h : p ∈ acc
      · obtain ⟨t, ht⟩ := ih acc
        exact ⟨t, by simp [firstSeenAux, h, ht]⟩
      · obtain ⟨t, ht⟩ := ih (acc ++ [p])
        refine ⟨[p] ++ t, ?_⟩
        rw [firstSeenAux, if_neg h, ht]
        simp

/-- The index of an element of `acc` is unchanged by appending. -/
theorem idxOfS_append_left {p : String} {acc : List String} (h : p ∈ acc)
    (t : List String) : idxOfS p (acc ++ t) = idxOfS p acc := by
  induction acc with
  | nil => simp at h
  | cons b rest ih =>
      by_cases hb : b = p
      · simp [idxOfS, hb]
      · rcases List.mem_cons.mp h with h1 | h2
        · exact absurd h1.symm hb
        · simp [idxOfS, hb, ih h2]

/-- A fresh element appended to `acc` sits at index `acc.length`. -/
theorem idxOfS_append_self {p : String} {acc : List String} (h : p ∉ acc)
    (t : List String) : idxOfS p (acc ++ p :: t) = acc.length := by
  induction acc with
  | nil => simp [idxOfS]
  | cons b rest ih =>
      have hb : ¬ (b = p) := fun he => h (he ▸ List.mem_cons_self b rest)
      have hrest : p ∉ rest := fun hm => h (List.mem_cons_of_mem _ hm)
      simp [idxOfS, hb, ih hrest]

/-- Lookup in the auto-label dict of a first-seen list: the label of an
already-seen id is `Speaker` of its first-seen index. -/
theorem dictGet_mkAuto (acc : List String) (p : String) :
    ∀ n : Nat, dictGet? (mkAuto acc n) (Json.str p) =
      if p ∈ acc then some ("Speaker " ++ toString (n + idxOfS p acc + 1)) else none := by
  induction acc with
  | nil => intro n; simp [mkAuto, dictGet?]
  | cons q rest ih =>
      intro n
      by_cases hq : q = p
      · subst hq
        simp [mkAuto, dictGet?, jeq, idxOfS]
      · by_cases hp : p ∈ rest
        · have harith : n + 1 + idxOfS p rest + 1 = n + (idxOfS p rest + 1) + 1 := by omega
          simp [mkAuto, dictGet?, jeq, hq, idxOfS, ih (n + 1), hp, harith]
        · have hpq : ¬ (p = q) := fun he => hq he.symm
          simp [mkAuto, dictGet?, jeq, hq, hpq, idxOfS, ih (n + 1), hp]

/-- Extending a first-seen list extends its auto-label dict with the
next label. -/
theorem mkAuto_snoc (acc : List String) (p : String) :
    ∀ n : Nat, mkAuto (acc ++ [p]) n =
      mkAuto acc n ++ [(Json.str p, "Speaker " ++ toString (n + acc.length + 1))] := by
  induction acc with
  | nil => intro n; simp [mkAuto]
  | cons q rest ih =>
      intro n
      have harith : n + 1 + rest.length + 1 = n + (rest.length + 1) + 1 := by omega
      simp [mkAuto, ih (n + 1), harith]

/-- Setting an absent key appends the binding. -/
theorem dictSet_append {α : Type} (m : List (Json × α)) (k : Json) (v : α)
    (h : dictGet? m k = none) : dictSet m k v = m ++ [(k, v)] := by
  induction m with
  | nil => simp [dictSet]
  | cons kv rest ih =>
      obtain ⟨k1, v1⟩ := kv
      by_cases hk : jeq k1 k = true
      · simp [dictGet?, hk] at h
      · rw [dictGet?] at h
        rw [if_neg hk] at h
        rw [dictSet, if_neg hk, ih h]
        simp

/-- The labelling invariant of the transcript loop: starting from the
auto-label state of an already-seen list `acc` and with no resolvable
names, each processed segment is attributed `Speaker (i+1)` where `i`
is the first-appearance index of its participant id, and the final
auto map and counter are those of the extended first-seen list.  `prev`
is arbitrary: it only affects the emitted lines, which are existential
here. -/
theorem loop_labels (ps : List (String × String)) :
    ∀ (acc : List String) (prev : Option Json),
      (∀ pr ∈ ps, pr.1 ≠ "" ∧ pystrip pr.2 ≠ "") →
      ∃ lns, transcript_segments_loop []
          (ps.map (fun pr => mkSeg pr.1 pr.2)) (mkAuto acc 0) acc.length prev =
        .ok (lns, mkAuto (firstSeenAux (ps.map Prod.fst) acc) 0,
             (firstSeenAux (ps.map Prod.fst) acc).length,
             ps.map (fun pr =>
               Json.str ("Speaker " ++
                 toString (idxOfS pr.1 (firstSeenAux (ps.map Prod.fst) acc) + 1)))) := by
  induction ps with
  | nil =>
      intro acc prev _
      exact ⟨[], by simp [transcript_segments_loop, firstSeenAux]⟩
  | cons pr rest ih =>
      intro acc prev h
      obtain ⟨p, t⟩ := pr
      have hp : p ≠ "" := (h (p, t) (List.mem_cons_self _ _)).1
      have ht : pystrip t ≠ "" := (h (p, t) (List.mem_cons_self _ _)).2
      have ht' : t ≠ "" := ne_empty_of_pystrip ht
      have hrest : ∀ q ∈ rest, q.1 ≠ "" ∧ pystrip q.2 ≠ "" :=
        fun q hq => h q (List.mem_cons_of_mem _ hq)
      by_cases hmem : p ∈ acc
      · -- the id has been seen: label reused, state unchanged
        have hfs : firstSeenAux (p :: rest.map Prod.fst) acc
            = firstSeenAux (rest.map Prod.fst) acc := by
          rw [firstSeenAux, if_pos hmem]
        obtain ⟨tl, htl⟩ := firstSeenAux_append (rest.map Prod.fst) acc
        have hidx : idxOfS p (firstSeenAux (rest.map Prod.fst) acc) = idxOfS p acc := by
          rw [htl]; exact idxOfS_append_left hmem tl
        cases prev with
        | none =>
            obtain ⟨lns, hlns⟩ := ih acc
              (some (Json.str ("Speaker " ++ toString (idxOfS p acc + 1)))) hrest
            simp only [mkSeg] at hlns
            simp only [List.map_cons, mkSeg]
            simp [transcript_segments_loop, jget, orJ, truthy, resolve_speaker, ht, ht', hp,
              dictGet?, dictGet_mkAuto, hmem, hfs, hidx, hlns]
        | some pv =>
            by_cases hj : jeq (Json.str ("Speaker " ++ toString (idxOfS p acc + 1))) pv = true
            · obtain ⟨lns, hlns⟩ := ih acc (some pv) hrest
              simp only [mkSeg] at hlns
              simp only [List.map_cons, mkSeg]
              simp [transcript_segments_loop, jget, orJ, truthy, resolve_speaker, ht, ht', hp,
                dictGet?, dictGet_mkAuto, hmem, hfs, hidx, hj, hlns]
            · obtain ⟨lns, hlns⟩ := ih acc
                (some (Json.str ("Speaker " ++ toString (idxOfS p acc + 1)))) hrest
              simp only [mkSeg] at hlns
              simp only [List.map_cons, mkSeg]
              simp [transcript_segments_loop, jget, orJ, truthy, resolve_speaker, ht, ht', hp,
                dictGet?, dictGet_mkAuto, hmem, hfs, hidx, hj, hlns]
      · -- a fresh id: new label, auto map and counter extended
        have hfs : firstSeenAux (p :: rest.map Prod.fst) acc
            = firstSeenAux (rest.map Prod.fst) (acc ++ [p]) := by
          rw [firstSeenAux, if_neg hmem]
        obtain ⟨tl, htl⟩ := firstSeenAux_append (rest.map Prod.fst) (acc ++ [p])
        have hidx : idxOfS p (firstSeenAux (rest.map Prod.fst) (acc ++ [p]))
            = acc.length := by
          rw [htl, List.append_assoc]
          exact idxOfS_append_self hmem tl
        have hnone : dictGet? (mkAuto acc 0) (Json.str p) = none := by
          rw [dictGet_mkAuto, if_neg hmem]
        have hset : dictSet (mkAuto acc 0) (Json.str p)
              ("Speaker " ++ toString (acc.length + 1))
            = mkAuto (acc ++ [p]) 0 := by
          rw [dictSet_append _ _ _ hnone, mkAuto_snoc]
          simp
        have hlen : (acc ++ [p]).length = acc.length + 1 := by simp
        obtain ⟨lns, hlns⟩ := ih (acc ++ [p])
          (some (Json.str ("Speaker " ++ toString (acc.length + 1)))) hrest
        rw [hlen] at hlns
        cases prev with
        | none =>
            simp only [mkSeg] at hlns
            simp only [List.map_cons, mkSeg]
            simp [transcript_segments_loop, jget, orJ, truthy, resolve_speaker, ht, ht', hp,
              dictGet?, hnone, hset, hfs, hidx, hlns]
        | some pv =>
            by_cases hj : jeq (Json.str ("Speaker " ++ toString (acc.length + 1))) pv = true
            · -- the fresh label happens to equal the previous speaker
              -- string: the recursion continues with `prev` unchanged,
              -- which is the same JSON value
              have hpv : pv = Json.str ("Speaker " ++ toString (acc.length + 1)) := by
                cases pv <;> simp [jeq] at hj ⊢
                exact hj.symm
              subst hpv
              simp only [mkSeg] at hlns
              simp only [List.map_cons, mkSeg]
              simp [transcript_segments_loop, jget, orJ, truthy, resolve_speaker, ht, ht', hp,
                dictGet?, hnone, hset, hfs, hidx, jeq, hlns]
            · simp only [mkSeg] at hlns
              simp only [List.map_cons, mkSeg]
              simp [transcript_segments_loop, jget, orJ, truthy, resolve_speaker, ht, ht', hp,
                dictGet?, hnone, hset, hfs, hidx, hj, hlns]

/-- Claim C4: with no resolvable names, auto-labels `Speaker 1`,
`Speaker 2`, … are assigned in order of first appearance of the
participant ids and reused for repeats; in particular ids
`[A, A, B, A]` receive `Speaker 1, Speaker 1, Speaker 2, Speaker 1`. -/
theorem speaker_labels_first_seen :
    (∀ ps : List (String × String),
      (∀ pr ∈ ps, pr.1 ≠ "" ∧ pystrip pr.2 ≠ "") →
      ∃ lns, transcript_segments_loop []
          (ps.map (fun pr => mkSeg pr.1 pr.2)) [] 0 none =
        .ok (lns, mkAuto (firstSeenAux (ps.map Prod.fst) []) 0,
             (firstSeenAux (ps.map Prod.fst) []).length,
             ps.map (fun pr => Json.str ("Speaker " ++
               toString (idxOfS pr.1 (firstSeenAux (ps.map Prod.fst) []) + 1))))) ∧
    (∀ A B : String, A ≠ "" → B ≠ "" → A ≠ B →
      ∃ lns auto,
        transcript_segments_loop []
            ([A, A, B, A].map (fun p => mkSeg p "hi")) [] 0 none =
          .ok (lns, auto, 2,
               [Json.str "Speaker 1", Json.str "Speaker 1",
                Json.str "Speaker 2", Json.str "Speaker 1"])) := by
  constructor
  · intro ps hps
    have h := loop_labels ps [] none hps
    simpa [mkAuto] using h
  · intro A B hA hB hAB
    have hBA : ¬ (B = A) := fun h => hAB h.symm
    have hfs : firstSeenAux [A, A, B, A] [] = [A, B] := by
      simp [firstSeenAux, hBA]
    have hmem : ∀ pr ∈ [(A, "hi"), (A, "hi"), (B, "hi"), (A, "hi")],
        (pr : String × String).1 ≠ "" ∧ pystrip pr.2 ≠ "" := by
      intro pr hpr
      have hhi : pystrip "hi" ≠ "" := by decide
      simp only [List.mem_cons, List.not_mem_nil, or_false] at hpr
      rcases hpr with rfl | rfl | rfl | rfl
      · exact ⟨hA, hhi⟩
      · exact ⟨hA, hhi⟩
      · exact ⟨hB, hhi⟩
      · exact ⟨hA, hhi⟩
    obtain ⟨lns, hl⟩ := loop_labels [(A, "hi"), (A, "hi"), (B, "hi"), (A, "hi")] [] none hmem
    have hs1 : "Speaker " ++ toString (1 : Nat) = "Speaker 1" := rfl
    have hs2 : "Speaker " ++ toString (2 : Nat) = "Speaker 2" := rfl
    refine ⟨lns, mkAuto [A, B] 0, ?_⟩
    simp only [List.map_cons, List.map_nil] at hl ⊢
    simp only [List.map_cons, List.map_nil, hfs, mkAuto, List.length_nil,
      List.length_cons] at hl
    rw [hl]
    simp [mkAuto, idxOfS, hAB, hs1, hs2]

/-- Witness for `speaker_labels_first_seen` at concrete ids. -/
theorem speaker_labels_first_seen_witness :
    (∃ lns, transcript_segments_loop []
        ([("a", "x")].map (fun pr => mkSeg pr.1 pr.2)) [] 0 none =
      .ok (lns, mkAuto (firstSeenAux ([("a", "x")].map Prod.fst) []) 0,
           (firstSeenAux ([("a", "x")].map Prod.fst) []).length,
           [("a", "x")].map (fun pr => Json.str ("Speaker " ++
             toString (idxOfS pr.1 (firstSeenAux ([("a", "x")].map Prod.fst) []) + 1))))) ∧
    (∃ lns auto,
      transcript_segments_loop [] (["a", "a", "b", "a"].map (fun p => mkSeg p "hi")) [] 0 none =
        .ok (lns, auto, 2,
             [Json.str "Speaker 1", Json.str "Speaker 1",
              Json.str "Speaker 2", Json.str "Speaker 1"])) :=
  ⟨speaker_labels_first_seen.1 [("a", "x")] (by decide),
   speaker_labels_first_seen.2 "a" "b" (by decide) (by decide) (by decide)⟩

-- ---------------------------------------------------------------------------
-- Claim C3: independent summary sections
-- ---------------------------------------------------------------------------

/-- When the summary lookup succeeds with extractable text, the
action-items lookup raises, and the key-points lookup succeeds with a
non-empty item list, the report is the truncation of the assembled
three-section document. -/
theorem get_summary_three_sections (oracle : String → HttpOutcome) (cid : String)
    (js jk : Json) (s : String) (items : List String) (e : PyErr)
    (h1 : oracle (API_BASE_URL ++ "/" ++ ("activity/" ++ cid) ++ "/" ++ "transcription-summary")
      = .resp 200 (.ok js))
    (h2 : truthy js = true) (h3 : _extract_text js "summary" = s) (h4 : s ≠ "")
    (h5 : oracle (API_BASE_URL ++ "/" ++ ("activity/" ++ cid) ++ "/" ++ "action-items")
      = .raise e)
    (h6 : oracle (API_BASE_URL ++ "/" ++ ("activity/" ++ cid) ++ "/" ++ "key-points")
      = .resp 200 (.ok jk))
    (h7 : truthy jk = true) (h8 : _extract_list_items jk = items) (h9 : items ≠ []) :
    jiminny_get_summary true oracle cid =
      .ok (_truncate (pyJoin "\n"
        (["# Conversation Summary", "", "## Summary", s, "", "## Action Items",
          "_Action items not available._", "", "## Key Points"]
          ++ items.map (fun i => "- " ++ i)))) := by
  have hsum : summary_section_lines oracle cid = [s] := by
    simp [summary_section_lines, _try_get, path_prefixes, try_get_loop, h1, h2, h3, h4]
  have hact : action_items_section_lines oracle cid = ["_Action items not available._"] := by
    simp [action_items_section_lines, _try_get, path_prefixes, try_get_loop, h5]
  have hkey : key_points_section_lines oracle cid = items.map (fun i => "- " ++ i) := by
    simp [key_points_section_lines, _try_get, path_prefixes, try_get_loop, h6, h7, h8, h9]
  simp [jiminny_get_summary, hsum, hact, hkey]

/-- Every element of a joined list occurs in the joined string. -/
theorem containsStr_pyJoin (sep x : String) : ∀ l : List String, x ∈ l →
    containsStr x (pyJoin sep l) := by
  intro l
  induction l with
  | nil => intro h; simp at h
  | cons a rest ih =>
      intro h
      cases rest with
      | nil =>
          simp at h
          subst h
          exact ⟨"", "", by simp [pyJoin]⟩
      | cons b rest2 =>
          rcases List.mem_cons.mp h with rfl | h2
          · exact ⟨"", sep ++ pyJoin sep (b :: rest2), by simp [pyJoin, String.append_assoc]⟩
          · obtain ⟨pre, post, hpp⟩ := ih h2
            exact ⟨a ++ sep ++ pre, post, by simp [pyJoin, hpp, String.append_assoc]⟩

/-- Claim C3 (amended): if the `action-items` lookup raises while
`transcription-summary` and `key-points` succeed with usable data, the
returned report is the truncation of the document holding the populated
Summary section, the fixed `Action items not available.` placeholder
and the populated Key Points section; within the character budget the
report is that document itself (and so contains all three parts), but
truncation can cut trailing sections. -/
theorem summary_sections_independent (oracle : String → HttpOutcome) (cid : String)
    (js jk : Json) (s : String) (items : List String) (e : PyErr) (doc : String)
    (h1 : oracle (API_BASE_URL ++ "/" ++ ("activity/" ++ cid) ++ "/" ++ "transcription-summary")
      = .resp 200 (.ok js))
    (h2 : truthy js = true) (h3 : _extract_text js "summary" = s) (h4 : s ≠ "")
    (h5 : oracle (API_BASE_URL ++ "/" ++ ("activity/" ++ cid) ++ "/" ++ "action-items")
      = .raise e)
    (h6 : oracle (API_BASE_URL ++ "/" ++ ("activity/" ++ cid) ++ "/" ++ "key-points")
      = .resp 200 (.ok jk))
    (h7 : truthy jk = true) (h8 : _extract_list_items jk = items) (h9 : items ≠ [])
    (hdoc : doc = pyJoin "\n"
      (["# Conversation Summary", "", "## Summary", s, "", "## Action Items",
        "_Action items not available._", "", "## Key Points"]
        ++ items.map (fun i => "- " ++ i))) :
    jiminny_get_summary true oracle cid = .ok (_truncate doc) ∧
    containsStr s doc ∧
    containsStr "_Action items not available._" doc ∧
    (∀ i ∈ items, containsStr ("- " ++ i) doc) ∧
    (doc.length ≤ CHARACTER_LIMIT → jiminny_get_summary true oracle cid = .ok doc) := by
  have heq := get_summary_three_sections oracle cid js jk s items e h1 h2 h3 h4 h5 h6 h7 h8 h9
  rw [← hdoc] at heq
  refine ⟨heq, ?_, ?_, ?_, ?_⟩
  · exact hdoc ▸ containsStr_pyJoin "\n" s _ (by simp)
  · exact hdoc ▸ containsStr_pyJoin "\n" _ _ (by simp)
  · intro i hi
    exact hdoc ▸ containsStr_pyJoin "\n" _ _ (by
      simp only [List.mem_append, List.mem_map]
      exact Or.inr ⟨i, hi, rfl⟩)
  · intro hle
    rw [heq, _truncate, if_pos hle]

/-- A concrete oracle for the witness: summary and key points succeed
on the `activity` prefix, everything else raises. -/
def c3wOracle : String → HttpOutcome := fun u =>
  if u = "https://app.jiminny.com/api/v1/activity/c/transcription-summary" then
    .resp 200 (.ok (Json.str "S"))
  else if u = "https://app.jiminny.com/api/v1/activity/c/key-points" then
    .resp 200 (.ok (Json.arr [Json.str "k"]))
  else .raise .timeout

/-- Witness for `summary_sections_independent` at a concrete oracle. -/
theorem summary_sections_independent_witness :
    jiminny_get_summary true c3wOracle "c" =
      .ok (_truncate (pyJoin "\n"
        (["# Conversation Summary", "", "## Summary", "S", "", "## Action Items",
          "_Action items not available._", "", "## Key Points"]
          ++ (["k"].map (fun i => "- " ++ i))))) ∧
    containsStr "S" (pyJoin "\n"
        (["# Conversation Summary", "", "## Summary", "S", "", "## Action Items",
          "_Action items not available._", "", "## Key Points"]
          ++ (["k"].map (fun i => "- " ++ i)))) ∧
    containsStr "_Action items not available._" (pyJoin "\n"
        (["# Conversation Summary", "", "## Summary", "S", "", "## Action Items",
          "_Action items not available._", "", "## Key Points"]
          ++ (["k"].map (fun i => "- " ++ i)))) ∧
    (∀ i ∈ ["k"], containsStr ("- " ++ i) (pyJoin "\n"
        (["# Conversation Summary", "", "## Summary", "S", "", "## Action Items",
          "_Action items not available._", "", "## Key Points"]
          ++ (["k"].map (fun i => "- " ++ i))))) ∧
    ((pyJoin "\n"
        (["# Conversation Summary", "", "## Summary", "S", "", "## Action Items",
          "_Action items not available._", "", "## Key Points"]
          ++ (["k"].map (fun i => "- " ++ i)))).length ≤ CHARACTER_LIMIT →
      jiminny_get_summary true c3wOracle "c" = .ok (pyJoin "\n"
        (["# Conversation Summary", "", "## Summary", "S", "", "## Action Items",
          "_Action items not available._", "", "## Key Points"]
          ++ (["k"].map (fun i => "- " ++ i))))) :=
  summary_sections_independent c3wOracle "c" (Json.str "S") (Json.arr [Json.str "k"])
    "S" ["k"] .timeout _
    rfl rfl (by simp [_extract_text]) (by decide) rfl rfl rfl
    (by simp [_extract_list_items, listItemsFromArr, pystrip]) (by decide) rfl

/-- A 26,000-character summary used to exhibit truncation. -/
def c3BigString : String := String.mk (List.replicate 26000 'a')

/-- The data of the long summary string. -/
theorem c3BigString_data : c3BigString.data = List.replicate 26000 'a' := rfl

/-- The assembled document for the truncation counterexample. -/
def c3ceDoc : String := pyJoin "\n"
  (["# Conversation Summary", "", "## Summary", c3BigString, "", "## Action Items",
    "_Action items not available._", "", "## Key Points"]
    ++ (["k"].map (fun i => "- " ++ i)))

/-- The character data of a three-section document with summary text
`S` and one key point `k`. -/
theorem summary_doc_data_shape (S k : String) :
    (pyJoin "\n" (["# Conversation Summary", "", "## Summary", S, "", "## Action Items",
      "_Action items not available._", "", "## Key Points"] ++ ([k].map (fun i => "- " ++ i)))).data
    = "# Conversation Summary\n\n## Summary\n".data ++
      (S.data ++ ("\n\n## Action Items\n_Action items not available._\n\n## Key Points\n- ".data
        ++ k.data)) := by
  simp [pyJoin, String.data_append, List.append_assoc]

/-- The counterexample oracle: a 26,000-character summary, a raising
action-items lookup, one key point. -/
def c3ceOracle : String → HttpOutcome := fun u =>
  if u = "https://app.jiminny.com/api/v1/activity/c/transcription-summary" then
    .resp 200 (.ok (Json.str c3BigString))
  else if u = "https://app.jiminny.com/api/v1/activity/c/key-points" then
    .resp 200 (.ok (Json.arr [Json.str "k"]))
  else .raise .timeout

/-- The long summary string is non-empty. -/
theorem c3BigString_ne_empty : c3BigString ≠ "" := by
  intro h
  have hd : c3BigString.data = [] := by rw [h]
  rw [c3BigString_data] at hd
  have hlen := congrArg List.length hd
  rw [List.length_replicate] at hlen
  simp only [List.length_nil] at hlen
  exact absurd hlen (by decide)

/-- A non-empty JSON string is truthy. -/
theorem truthy_str_of_ne (s : String) (h : s ≠ "") : truthy (Json.str s) = true := by
  have hb : (s == "") = false := beq_eq_false_iff_ne.mpr h
  have hdef : truthy (Json.str s) = !(s == "") := rfl
  rw [hdef, hb]
  rfl

/-- The text extractor returns a bare string payload unchanged. -/
theorem extract_text_str (s fb : String) : _extract_text (.str s) fb = s := by
  simp [_extract_text]

/-- The character data of a truncated over-budget string. -/
theorem truncate_data_of_long (s : String) (h : ¬ s.length ≤ CHARACTER_LIMIT) :
    (_truncate s).data = s.data.take CHARACTER_LIMIT ++ TRUNCATION_SUFFIX.data := by
  rw [_truncate, if_neg h]
  simp [strTake, String.data_append]

/-- Counterexample to claim C3 as stated: with a 26,000-character
summary (usable data), the returned report is cut at the 25,000
character budget before the Action Items section, so it does NOT
contain the `Action items not available.` placeholder. -/
theorem summary_truncation_drops_placeholder :
    ¬ ∃ s, jiminny_get_summary true c3ceOracle "c" = .ok s ∧
        containsStr "_Action items not available._" s := by
  rintro ⟨s, hs, pre, post, hpp⟩
  have htruthy : truthy (Json.str c3BigString) = true :=
    truthy_str_of_ne c3BigString c3BigString_ne_empty
  have hext : _extract_text (Json.str c3BigString) "summary" = c3BigString :=
    extract_text_str c3BigString "summary"
  have hitems : _extract_list_items (Json.arr [Json.str "k"]) = ["k"] := by
    simp [_extract_list_items, listItemsFromArr, pystrip]
  have heq : jiminny_get_summary true c3ceOracle "c" = .ok (_truncate c3ceDoc) :=
    get_summary_three_sections c3ceOracle "c" (Json.str c3BigString)
      (Json.arr [Json.str "k"]) c3BigString ["k"] PyErr.timeout rfl htruthy hext
      c3BigString_ne_empty rfl rfl rfl hitems (by decide)
  rw [heq] at hs
  have hsEq : _truncate c3ceDoc = s := (Except.ok.injEq _ _).mp hs
  have hshape : c3ceDoc.data = "# Conversation Summary\n\n## Summary\n".data ++
      (c3BigString.data ++
        ("\n\n## Action Items\n_Action items not available._\n\n## Key Points\n- ".data
          ++ "k".data)) := summary_doc_data_shape c3BigString "k"
  have hsplit : c3ceDoc.data =
      ("# Conversation Summary\n\n## Summary\n".data ++ List.replicate 26000 'a') ++
        ("\n\n## Action Items\n_Action items not available._\n\n## Key Points\n- ".data
          ++ "k".data) := by
    rw [hshape, c3BigString_data, ← List.append_assoc]
  have hplen : ("# Conversation Summary\n\n## Summary\n".data).length = 35 := by decide
  have hL1len : ("# Conversation Summary\n\n## Summary\n".data ++
      List.replicate 26000 'a').length = 26035 := by
    rw [List.length_append, hplen, List.length_replicate]
  have hnotle : ¬ c3ceDoc.length ≤ CHARACTER_LIMIT := by
    have hlen : c3ceDoc.length = c3ceDoc.data.length := rfl
    rw [hlen, hsplit, List.length_append, hL1len]
    simp only [CHARACTER_LIMIT]
    omega
  have htr : (_truncate c3ceDoc).data =
      c3ceDoc.data.take CHARACTER_LIMIT ++ TRUNCATION_SUFFIX.data :=
    truncate_data_of_long c3ceDoc hnotle
  have hmem : ('_' : Char) ∈ s.data := by
    rw [hpp]
    simp only [String.data_append, List.mem_append]
    exact Or.inl (Or.inr (by decide))
  rw [← hsEq, htr] at hmem
  rcases List.mem_append.mp hmem with hm | hm
  · rw [hsplit, CHARACTER_LIMIT,
      List.take_append_of_le_length (by rw [hL1len]; omega)] at hm
    have hm2 := List.take_subset _ _ hm
    rcases List.mem_append.mp hm2 with hm3 | hm3
    · exact absurd hm3 (by decide)
    · exact absurd (List.eq_of_mem_replicate hm3) (by decide)
  · exact absurd hm (by decide)
